import Mathlib

/-!
# Minute-Maker: per-user state, persistence and generation (`src/app.js`)

A shallow embedding of the state-handling code of `src/app.js` and the
properties of it that the specification states.

Modelling conventions.

* A JavaScript value is a `JsVal`: the JSON values, plus `native` for a value
  that `JSON.stringify` cannot write (a function or a host object, such as the
  members of `Object.prototype`).  `undefined` is the `none` of an
  `Option JsVal`; an object property holding `undefined` is modelled as an
  absent property (the two cannot be told apart by the property reads and the
  `JSON.stringify` calls of the program).  Numbers are the integers: the only
  number the program computes with is `Date.now()`.
* A string held in Web Storage is a `Text`: the program only tests such a
  string for truthiness and hands it to `JSON.parse`, so a `Text` records which
  of the three cases applies, and the parsed value.
* Strings are Lean strings (sequences of code points); where the source counts
  UTF-16 code units (`charCodeAt`) the code points are expanded to code units.
* A handler that ends in an uncaught exception is `none`.
* The render functions assign nothing to `state` or to the storages, but they
  can throw; the `renders*` predicates say when they return, and every
  function that calls one takes it into account.  The elements of the page
  that the script looks up are taken to exist.
* `toLowerCase` is exact on ASCII and on the two characters outside ASCII whose
  lower case has an ASCII letter; other characters are left as they are.  This
  makes `deriveId` exact on every string.  For `sectionKey` and `keyUser` it is
  exact on ASCII names, and no theorem stated for all names depends on how a
  character outside ASCII is lower-cased.
-/

namespace MinuteMaker

/-! ## JavaScript values -/

/-- A JavaScript value: JSON, or `native` for what JSON cannot write. -/
inductive JsVal where
  | null
  | bool (b : Bool)
  | num (n : Int)
  | str (s : String)
  | arr (xs : List JsVal)
  | obj (kvs : List (String × JsVal))
  | native

/-- Truthiness of a value (`if (v)`, `!v`, `v || w`). -/
def JsVal.truthy : JsVal → Bool
  | .null => false
  | .bool b => b
  | .num n => n != 0
  | .str s => s != ""
  | .arr _ => true
  | .obj _ => true
  | .native => true

/-- Truthiness of a possibly undefined value. -/
def truthy? : Option JsVal → Bool
  | none => false
  | some v => v.truthy

/-- The property names every plain object inherits from `Object.prototype`. -/
def inheritedNames : List String :=
  ["constructor", "__defineGetter__", "__defineSetter__", "hasOwnProperty",
   "__lookupGetter__", "__lookupSetter__", "isPrototypeOf", "propertyIsEnumerable",
   "toString", "valueOf", "__proto__", "toLocaleString"]

/-- Own property lookup in a property list. -/
def lookupOwn (k : String) : List (String × JsVal) → Option JsVal
  | [] => none
  | (k', v) :: kvs => if k' = k then some v else lookupOwn k kvs

/-- The read `o[k]` on a plain object with own properties `kvs`: the own
property, else the member of `Object.prototype` of that name, else `undefined`. -/
def getProp (kvs : List (String × JsVal)) (k : String) : Option JsVal :=
  match lookupOwn k kvs with
  | some v => some v
  | none => if k ∈ inheritedNames then some .native else none

/-- The assignment `o[k] = v` on a plain object, for own properties: an existing
own property keeps its place, a new one goes last. -/
def setOwn (k : String) (v : JsVal) : List (String × JsVal) → List (String × JsVal)
  | [] => [(k, v)]
  | (k', v') :: kvs => if k' = k then (k, v) :: kvs else (k', v') :: setOwn k v kvs

/-- The assignment `o[k] = v` on a plain object: for the key `__proto__`, unless
the object has an own property of that name, it goes to the setter of
`Object.prototype` and creates no own property. -/
def setProp (k : String) (v : JsVal) (kvs : List (String × JsVal)) : List (String × JsVal) :=
  if k = "__proto__" ∧ (lookupOwn k kvs).isNone then kvs else setOwn k v kvs

/-- The read `v.k` on any value, for the names the program reads (`id`, `name`,
`sections`, `title`, `minutes`, `password`): `none` is the `TypeError` of a read
on `null`, `some none` is `undefined`. -/
def JsVal.get (k : String) : JsVal → Option (Option JsVal)
  | .null => none
  | .obj kvs => some (getProp kvs k)
  | _ => some (if k ∈ inheritedNames then some .native else none)

/-- Strict equality `a === b` where `b` is `null` or a string (the selected
template id, a derived id). -/
def strictEqStr (a : Option JsVal) (b : Option String) : Bool :=
  match a, b with
  | some .null, none => true
  | some (.str s), some t => s == t
  | _, _ => false

/-! ## `JSON.stringify` and `JSON.parse` -/

mutual
/-- The value `JSON.parse(JSON.stringify(v))` for a `v` other than `native`:
a `native` array element is written as `null`, a `native` property is left out. -/
def JsVal.clean : JsVal → JsVal
  | .arr xs => .arr (cleanItems xs)
  | .obj kvs => .obj (cleanProps kvs)
  | v => v
/-- Array elements through `JSON.stringify`. -/
def cleanItems : List JsVal → List JsVal
  | [] => []
  | .native :: xs => .null :: cleanItems xs
  | x :: xs => x.clean :: cleanItems xs
/-- Object properties through `JSON.stringify`. -/
def cleanProps : List (String × JsVal) → List (String × JsVal)
  | [] => []
  | (_, .native) :: kvs => cleanProps kvs
  | (k, v) :: kvs => (k, v.clean) :: cleanProps kvs
end

mutual
/-- A value is JSON: it holds no `native` anywhere. -/
def JsVal.isJson : JsVal → Bool
  | .arr xs => allJson xs
  | .obj kvs => allJsonProps kvs
  | .native => false
  | _ => true
/-- All elements are JSON. -/
def allJson : List JsVal → Bool
  | [] => true
  | x :: xs => x.isJson && allJson xs
/-- All property values are JSON. -/
def allJsonProps : List (String × JsVal) → Bool
  | [] => true
  | (_, v) :: kvs => v.isJson && allJsonProps kvs
end

/-- A string held in Web Storage, as far as the program can tell. -/
inductive Text where
  /-- A string `JSON.parse` accepts, with the value it yields (never empty). -/
  | json (v : JsVal)
  /-- A non-empty string `JSON.parse` rejects. -/
  | invalid
  /-- The empty string (falsy; `JSON.parse` rejects it). -/
  | empty

/-- The string `localStorage.setItem(key, JSON.stringify(v))` stores:
`JSON.stringify` of a function is `undefined`, stored as the text `undefined`. -/
def stringify : JsVal → Text
  | .native => .invalid
  | v => .json v.clean

/-- The call `JSON.parse(t)`: `none` is the `SyntaxError`. -/
def parse : Text → Option JsVal
  | .json v => some v
  | _ => none

/-- Truthiness of the result of `getItem` (a string or `null`). -/
def textTruthy : Option Text → Bool
  | some (.json _) => true
  | some .invalid => true
  | _ => false

/-! ## Strings -/

/-- The white space of `String.prototype.trim` and of `\s`. -/
def isJsSpace (c : Char) : Bool :=
  let n := c.toNat
  n = 0x09 || n = 0x0A || n = 0x0B || n = 0x0C || n = 0x0D || n = 0x20 || n = 0xA0 ||
  n = 0x1680 || (0x2000 ≤ n && n ≤ 0x200A) || n = 0x2028 || n = 0x2029 || n = 0x202F ||
  n = 0x205F || n = 0x3000 || n = 0xFEFF

/-- The lower-casing of one character: `A`-`Z`, and the two characters outside
ASCII whose lower case has an ASCII letter (the Kelvin sign and the dotted
capital I).  Other characters are left as they are: `toLowerCase` maps them to
characters outside ASCII, which the id pattern `[^a-z0-9]` treats alike. -/
def lowerChar (c : Char) : List Char :=
  if c.toNat = 0x212A then ['k']
  else if c.toNat = 0x0130 then ['i', Char.ofNat 0x0307]
  else [c.toLower]

/-- The call `s.toLowerCase()`. -/
def toLowerCase (s : String) : String := ⟨s.data.flatMap lowerChar⟩

/-- The call `s.trim()`. -/
def trim (s : String) : String :=
  ⟨((s.data.dropWhile isJsSpace).reverse.dropWhile isJsSpace).reverse⟩

/-- Replace every maximal run of characters satisfying `p` by the one
character `r` (`s.replace(/[p]+/g, r)`); `inRun` says the previous character
was in a run. -/
def replaceRuns (p : Char → Bool) (r : Char) (inRun : Bool) : List Char → List Char
  | [] => []
  | c :: cs =>
    if p c then
      if inRun then replaceRuns p r true cs else r :: replaceRuns p r true cs
    else c :: replaceRuns p r false cs

/-- Split at every occurrence of a character (`s.split(',')`, `s.split('_')`). -/
def splitAt (sep : Char) : List Char → List (List Char)
  | [] => [[]]
  | c :: cs =>
    if c = sep then [] :: splitAt sep cs
    else
      match splitAt sep cs with
      | [] => [[c]]
      | w :: ws => (c :: w) :: ws

/-- The class `[a-z0-9]`. -/
def isLowerAlnum (c : Char) : Bool :=
  (97 ≤ c.toNat && c.toNat ≤ 122) || (48 ≤ c.toNat && c.toNat ≤ 57)

/-- The id of a template name: `name.toLowerCase().replace(/[^a-z0-9]+/g,'-')`
(save-template handler, line 233; template-file handler, line 198). -/
def deriveId (name : String) : String :=
  ⟨replaceRuns (fun c => !isLowerAlnum c) '-' false (toLowerCase name).data⟩

/-- The key of a section in a minutes document:
`s.toLowerCase().replace(/\s+/g,'_')` (`apiGenerateMinutes`, line 172). -/
def sectionKey (s : String) : String :=
  ⟨replaceRuns isJsSpace '_' false (toLowerCase s).data⟩

/-- The UTF-16 code units of a character. -/
def codeUnits (c : Char) : List Int :=
  if c.toNat < 0x10000 then [(c.toNat : Int)]
  else [((0xD800 + (c.toNat - 0x10000) / 0x400 : Nat) : Int),
        ((0xDC00 + (c.toNat - 0x10000) % 0x400 : Nat) : Int)]

/-- The conversion `x | 0` of an integer to a signed 32-bit integer. -/
def toInt32 (x : Int) : Int := (x + 2 ^ 31) % 2 ^ 32 - 2 ^ 31

/-- One round of the loop of `shaBase`: `h=((h<<5)-h)+c; h|=0`. -/
def shaStep (h c : Int) : Int := toInt32 (toInt32 (h * 32) - h + c)

/-- The digest `shaBase(s)` (line 53): `'p' + Math.abs(h)`. -/
def shaBase (s : String) : String :=
  "p" ++ toString ((s.data.flatMap codeUnits).foldl shaStep 0).natAbs

/-! ## State and storage -/

/-- A Web Storage area: `getItem` is application, `none` is JavaScript `null`. -/
abbrev Storage := String → Option Text

/-- The call `storage.setItem(k, t)`. -/
def Storage.setItem (s : Storage) (k : String) (t : Text) : Storage :=
  fun k' => if k' = k then some t else s k'

/-- The call `storage.removeItem(k)`. -/
def Storage.removeItem (s : Storage) (k : String) : Storage :=
  fun k' => if k' = k then none else s k'

/-- An identity `{ email }`. -/
structure User where
  email : String
deriving DecidableEq, Repr

/-- The object `{ email }` of an identity. -/
def User.toJs (u : User) : JsVal := .obj [("email", .str u.email)]

/-- The global `state` (lines 2-13) with the two storage areas of the page. -/
structure State where
  user : Option User
  templates : JsVal
  selectedTemplateId : Option String
  transcript : String
  minutes : JsVal
  minutesHistory : JsVal
  localStorage : Storage
  sessionStorage : Storage

/-- The built-in templates (lines 5-7). -/
def builtinTemplates : List JsVal :=
  [ .obj [("id", .str "default"), ("name", .str "Default Minutes"),
      ("description", .str "Concise minutes with actions and decisions."),
      ("sections", .arr [.str "Title", .str "Date/Time", .str "Attendees", .str "Agenda",
        .str "Decisions", .str "Action Items", .str "Risks", .str "Next Meeting"])],
    .obj [("id", .str "board"), ("name", .str "Board Meeting"),
      ("description", .str "Formal structure for board sessions."),
      ("sections", .arr [.str "Title", .str "Date/Time", .str "Attendees", .str "Agenda",
        .str "Resolutions", .str "Motions", .str "Votes", .str "Action Items"])],
    .obj [("id", .str "sprint"), ("name", .str "Sprint Review"),
      ("description", .str "Engineering review and planning notes."),
      ("sections", .arr [.str "Sprint", .str "Participants", .str "Highlights", .str "Metrics",
        .str "Demos", .str "Decisions", .str "Backlog", .str "Action Items"])] ]

/-- The state when the script starts, over the storage the browser kept. -/
def initialState (ls ss : Storage) : State :=
  { user := none, templates := .arr builtinTemplates, selectedTemplateId := none,
    transcript := "", minutes := .null, minutesHistory := .arr [],
    localStorage := ls, sessionStorage := ss }

/-- The storage key of a resource kind for the active session (`keyUser`, line 56). -/
def keyUser (user : Option User) (ns : String) : String :=
  match user with
  | none => ns ++ ":guest"
  | some u => "users:" ++ toLowerCase u.email ++ ":" ++ ns

/-- The second half of the `try` block of `loadUserData` (line 70). -/
def loadMinutes (st : State) (m : Option Text) : State :=
  if textTruthy m then
    match m.bind parse with
    | some v => { st with minutesHistory := v }
    | none => st
  else st

/-- The function `loadUserData` (line 62): a stored string that is truthy is
parsed and assigned; a `SyntaxError` leaves the `try` block. -/
def loadUserData (st : State) : State :=
  let t := st.localStorage (keyUser st.user "templates")
  let m := st.localStorage (keyUser st.user "minutes")
  if textTruthy t then
    match t.bind parse with
    | some v => loadMinutes { st with templates := v } m
    | none => st
  else loadMinutes st m

/-- The function `persistUserData` (line 74). -/
def persistUserData (st : State) : State :=
  let ls := st.localStorage.setItem (keyUser st.user "templates") (stringify st.templates)
  { st with
    localStorage := ls.setItem (keyUser st.user "minutes") (stringify st.minutesHistory) }

/-- The function `saveSession` (line 83), called with an identity object: the
state it leaves.  Its three render calls come after every assignment;
`rendersSession` of the result says whether they return. -/
def saveSession (st : State) (user : User) (persist : Bool) : State :=
  let st := { st with user := some user }
  let st :=
    if persist then
      { st with localStorage := st.localStorage.setItem "session" (stringify user.toJs) }
    else
      { st with sessionStorage := st.sessionStorage.setItem "session" (stringify user.toJs) }
  loadUserData st

/-- The function `signOut` (line 98). -/
def signOut (st : State) : State :=
  { st with
    user := none
    localStorage := st.localStorage.removeItem "session"
    sessionStorage := st.sessionStorage.removeItem "session" }

/-! ## Generation -/

/-- The own properties of the object `map` of `apiGenerateMinutes` (lines
160-169); `nowText` is `new Date().toLocaleString()`. -/
def backendMap (nowText : String) : List (String × JsVal) :=
  [ ("Title", .str "Project Sync — Week 12"),
    ("Date/Time", .str nowText),
    ("Attendees", .str "A. Smith, B. Lee, C. Patel"),
    ("Agenda", .arr [.str "Timeline update", .str "Budget review", .str "Risks", .str "Next steps"]),
    ("Decisions", .arr [.str "Push release by 1 week", .str "Reduce scope of v1"]),
    ("Action Items", .arr [.str "Alice: finalize timeline (Fri)", .str "Ben: update budget (Thu)",
      .str "Chris: draft comms (Mon)"]),
    ("Risks", .arr [.str "Vendor delay on API", .str "Limited QA bandwidth"]),
    ("Next Meeting", .str "Next Tue 10:00 AM") ]

/-- The value `Array.isArray(map[s]) ? map[s] : (map[s] || '')` (line 173). -/
def sectionValue (nowText : String) (s : String) : JsVal :=
  match getProp (backendMap nowText) s with
  | some (.arr xs) => .arr xs
  | some v => if v.truthy then v else .str ""
  | none => .str ""

/-- The loop `template.sections.forEach(...)` (lines 171-174) over the elements
of `sections`, from the document `result` built so far.  `none`: an element is
not a string (`s.toLowerCase` is not a function). -/
def generateLoop (nowText : String) :
    List JsVal → List (String × JsVal) → Option (List (String × JsVal))
  | [], result => some result
  | .str s :: rest, result =>
    generateLoop nowText rest (setProp (sectionKey s) (sectionValue nowText s) result)
  | _ :: _, _ => none

/-- The function `apiGenerateMinutes(transcript, template)` (line 157): the own
properties of the object it resolves to.  `none`: a `TypeError` (`template` is
`null`, or `template.sections` is not an array of strings). -/
def apiGenerateMinutes (nowText : String) (_transcript : String) (template : JsVal) :
    Option (List (String × JsVal)) :=
  match template.get "sections" with
  | some (some (.arr secs)) => generateLoop nowText secs []
  | _ => none

/-- The call `state.templates.find(t => t.id === id)`: `none` is the `TypeError`
of `t.id` on a `null` element. -/
def findTemplate (id : Option String) : List JsVal → Option (Option JsVal)
  | [] => some none
  | t :: ts =>
    match t.get "id" with
    | none => none
    | some a => if strictEqStr a id then some (some t) else findTemplate id ts

/-- The call `state.templates.findIndex(t => t.id === id)` (`some none` is `-1`). -/
def findIndex (id : Option String) : List JsVal → Option (Option Nat)
  | [] => some none
  | t :: ts =>
    match t.get "id" with
    | none => none
    | some a =>
      if strictEqStr a id then some (some 0)
      else (findIndex id ts).map (Option.map (· + 1))

/-! ## Rendering: when the render functions return -/

/-- One card of `renderTemplates` (lines 117-123) is built without a
`TypeError`: `t.sections.slice(0,6).map(...)` needs `t.sections` to be an array. -/
def rendersCard : JsVal → Bool
  | .obj kvs =>
    match getProp kvs "sections" with
    | some (.arr _) => true
    | _ => false
  | _ => false

/-- The call `renderTemplates()` (line 115) returns. -/
def rendersTemplates : JsVal → Bool
  | .arr ts => ts.all rendersCard
  | _ => false

/-- The call `renderTemplatePreview()` (line 104) returns: the selected
template, if there is one, has an array of sections. -/
def rendersTemplatePreview (templates : JsVal) (selectedTemplateId : Option String) : Bool :=
  match templates with
  | .arr ts =>
    match findTemplate selectedTemplateId ts with
    | none => false
    | some found =>
      if truthy? found then
        match found.bind (fun t => (t.get "sections").join) with
        | some (.arr _) => true
        | _ => false
      else true
  | _ => false

/-- The call `renderMinutes()` (line 127) returns on a document: every key `k`
is split at `_` and the first character of every piece is read, which throws
on an empty piece. -/
def rendersDocument (minutes : List (String × JsVal)) : Bool :=
  minutes.all (fun kv => (splitAt '_' kv.1.data).all (fun w => !w.isEmpty))

/-- The call `renderMinutesHistory()` (line 137) returns: `item.title` is read
on every element. -/
def rendersMinutesHistory : JsVal → Bool
  | .arr items => items.all (fun item => (item.get "title").isSome)
  | _ => false

/-- The three render calls that end `saveSession` (lines 90-92) return. -/
def rendersSession (st : State) : Bool :=
  rendersTemplates st.templates &&
  rendersTemplatePreview st.templates st.selectedTemplateId &&
  rendersMinutesHistory st.minutesHistory

/-- An object literal property `k: v` where `v` may be `undefined`. -/
def optProp (k : String) : Option JsVal → List (String × JsVal)
  | some v => [(k, v)]
  | none => []

/-- The history record `{ ts, template, title, minutes }` (line 188). -/
def historyRecord (now : Int) (tplName : Option JsVal) (title : JsVal)
    (minutes : List (String × JsVal)) : JsVal :=
  .obj ([("ts", .num now)] ++ optProp "template" tplName ++
    [("title", title), ("minutes", .obj minutes)])

/-- The value `minutes.title || 'Project Minutes'` (line 187). -/
def deriveTitle (minutes : List (String × JsVal)) : JsVal :=
  match getProp minutes "title" with
  | some v => if v.truthy then v else .str "Project Minutes"
  | none => .str "Project Minutes"

/-- The click handler of `generate` (lines 182-191); `now` is `Date.now()`,
`transcriptEl` the value of the transcript field.  `none`: a `TypeError`
(`state.templates` or `state.minutesHistory` is not an array, no template to
use, a malformed template, a render call that throws), or a template whose
`id` is neither a string nor `null`. -/
def generateClick (st : State) (now : Int) (nowText transcriptEl : String) : Option State :=
  match st.templates with
  | .arr ts =>
    match findTemplate st.selectedTemplateId ts with
    | none => none
    | some found =>
      match (if truthy? found then found else ts.head?) with
      | none => none
      | some tpl =>
        match tpl.get "id", tpl.get "name" with
        | some tid, some tname =>
          let sel : Option (Option String) :=
            match tid with
            | some (.str i) => some (some i)
            | some .null => some none
            | _ => none
          match sel, apiGenerateMinutes nowText
              (if st.transcript != "" then st.transcript else transcriptEl) tpl,
              st.minutesHistory with
          | some sel, some minutes, .arr h =>
            let st' := persistUserData
              { st with
                selectedTemplateId := sel
                minutes := .obj minutes
                minutesHistory :=
                  .arr (historyRecord now tname (deriveTitle minutes) minutes :: h) }
            if rendersDocument minutes && rendersMinutesHistory st'.minutesHistory then some st'
            else none
          | _, _, _ => none
        | _, _ => none
  | _ => none

/-! ## Templates -/

/-- What a handler that reports to the user did. -/
inductive Outcome where
  /-- The handler ran to its end (`Template imported.`, `Template saved ...`,
  signed in). -/
  | done (st : State)
  /-- The handler reported a fault and stopped (`Invalid template file ...`,
  `Prompts must be valid JSON.`, `Incorrect password`). -/
  | refused (st : State)
  /-- The handler returned without doing anything. -/
  | ignored (st : State)

/-- The state a handler leaves. -/
def Outcome.state : Outcome → State
  | .done st => st
  | .refused st => st
  | .ignored st => st

/-- Whether the handler ran to its end. -/
def Outcome.isDone : Outcome → Bool
  | .done _ => true
  | _ => false

/-- The statement `if(!data.id) data.id = (data.name || 'custom')...` (line 198)
on an object: `none` is the `TypeError` of `toLowerCase` on a name that is not
a string. -/
def assignId (kvs : List (String × JsVal)) : Option (List (String × JsVal)) :=
  if truthy? (getProp kvs "id") then some kvs
  else
    match (if truthy? (getProp kvs "name") then getProp kvs "name" else some (.str "custom")) with
    | some (.str n) => some (setProp "id" (.str (deriveId n)) kvs)
    | _ => none

/-- The change handler of `template-file` (lines 193-203) once a file is chosen;
`file` is its text.  Every exception is caught and reported, that of
`renderTemplates()` too, which is called after the `push`.  `none`: the text
parses to an array or a primitive, which is outside this model. -/
def importTemplate (st : State) (file : Text) : Option Outcome :=
  match parse file with
  | none => some (.refused st)
  | some .null => some (.refused st)
  | some (.obj kvs) =>
    match assignId kvs, st.templates with
    | some kvs', .arr ts =>
      let st' := { st with templates := .arr (ts ++ [.obj kvs']) }
      if rendersTemplates st'.templates then some (.done st') else some (.refused st')
    | _, _ => some (.refused st)
  | some _ => none

/-- The sections of the editor:
`value.split(',').map(s=>s.trim()).filter(Boolean)` (line 235). -/
def editorSections (value : String) : List String :=
  ((splitAt ',' value.data).map (fun w => trim ⟨w⟩)).filter (· != "")

/-- The click handler of `save-template` (lines 231-247) on the values of the
four editor fields; `prompts` is `none` when the prompts field is blank, else
its text.  `none`: a `TypeError` (`state.templates` is not an array, or has a
`null` element before the match, or `renderTemplates()` throws). -/
def saveTemplate (st : State) (tplName tplDesc tplSections : String) (prompts : Option Text) :
    Option Outcome :=
  let name := if trim tplName != "" then trim tplName else "Custom Template"
  let id := deriveId name
  let description := trim tplDesc
  let sections := editorSections tplSections
  let parsed : Option (Option JsVal) :=
    match prompts with
    | none => some none
    | some t => (parse t).map some
  match parsed with
  | none => some (.refused st)
  | some pv =>
    match st.templates with
    | .arr ts =>
      let tpl : JsVal := .obj ([("id", .str id), ("name", .str name),
        ("description", .str description), ("sections", .arr (sections.map .str))] ++
        optProp "prompts" pv)
      let upserted : Option (List JsVal) :=
        match findIndex (some id) ts with
        | none => none
        | some (some i) => some (ts.set i tpl)
        | some none => some (ts ++ [tpl])
      match upserted with
      | none => none
      | some ts' =>
        let st' := persistUserData { st with templates := .arr ts' }
        if rendersTemplates st'.templates then some (.done st') else none
    | _ => none

/-! ## History -/

/-- The click handler of `clear-minutes` (line 256), once confirmed. -/
def clearMinutes (st : State) : State :=
  persistUserData { st with minutesHistory := .arr [] }

/-! ## Credentials -/

/-- The function `authSubmit` is the submit handler of the sign-in form (lines
261-278) on the values of its fields.  `none`: the stored `users` text does not
parse, or parses to something other than an object, or a render call of
`saveSession` throws. -/
def authSubmit (st : State) (emailField password : String) (persist : Bool) : Option Outcome :=
  let email := trim emailField
  if email = "" ∨ password = "" then some (.ignored st)
  else
    let raw := st.localStorage "users"
    match (if textTruthy raw then raw else some (.json (.obj []))).bind parse with
    | some (.obj storedUsers) =>
      let rec? := getProp storedUsers email
      if !truthy? rec? then
        let users := setProp email (.obj [("password", .str (shaBase password))]) storedUsers
        let st' := saveSession
          { st with localStorage := st.localStorage.setItem "users" (stringify (.obj users)) }
          ⟨email⟩ persist
        if rendersSession st' then some (.done st') else none
      else
        match rec?.bind (JsVal.get "password") with
        | some pw =>
          if strictEqStr pw (some (shaBase password)) then
            let st' := saveSession
              { st with
                localStorage := st.localStorage.setItem "users" (stringify (.obj storedUsers)) }
              ⟨email⟩ persist
            if rendersSession st' then some (.done st') else none
          else some (.refused st)
        | none => none
    | _ => none

/-! ## Scenarios

Concrete runs of the program, used to instantiate the theorems below. -/

/-- The state of a first visit: nothing stored. -/
def freshState : State := initialState (fun _ => none) (fun _ => none)

/-- The state after one generation from a fresh start. -/
def onceGenerated : Option State :=
  generateClick freshState 1 "1/1/2025" "first"

/-- The state after a second generation. -/
def twiceGenerated : Option State :=
  onceGenerated.bind (fun st => generateClick st 2 "2/1/2025" "second")

/-- An identity. -/
def alice : User := ⟨"alice@example.com"⟩

/-- Another identity. -/
def bob : User := ⟨"bob@example.com"⟩

/-- The id of a template as `t.id` reads it (`none`: `undefined`, or no read
is possible). -/
def templateId (t : JsVal) : Option JsVal := (t.get "id").join

/-- The ids of the templates of a registry, in order. -/
def templateIds (ts : List JsVal) : List (Option JsVal) := ts.map templateId

/-- An import file without a `sections` field. -/
def noSectionsFile : Text := .json (.obj [("name", .str "No Sections")])

/-- An import file that brings the id of a built-in template. -/
def sameIdFile : Text :=
  .json (.obj [("id", .str "default"), ("name", .str "Mine"), ("sections", .arr [.str "Title"])])

/-- Alice signs in on a first visit. -/
def aliceSignedIn : Option Outcome :=
  authSubmit freshState "alice@example.com" "pw-a" true

/-- Alice then saves a template of her own from the editor. -/
def aliceSaved : Option Outcome :=
  aliceSignedIn.bind (fun o => saveTemplate o.state "Alice Plan" "private" "Budget, Staff" none)

/-- Alice then generates minutes. -/
def aliceGenerated : Option State :=
  aliceSaved.bind (fun o => generateClick o.state 1 "1/1/2025" "notes")

/-- Bob then signs in, for the first time, in the same page. -/
def bobSignedIn : Option Outcome :=
  aliceGenerated.bind (fun st => authSubmit st "bob@example.com" "pw-b" true)

/-- Saving leaves the templates in memory as they are. -/
@[simp] theorem persistUserData_templates (st : State) :
    (persistUserData st).templates = st.templates := rfl

/-- Saving leaves the session as it is. -/
@[simp] theorem persistUserData_user (st : State) :
    (persistUserData st).user = st.user := rfl

/-- Saving writes to `localStorage` only. -/
@[simp] theorem persistUserData_sessionStorage (st : State) :
    (persistUserData st).sessionStorage = st.sessionStorage := rfl

/-- Loading the history leaves the session as it is. -/
theorem loadMinutes_user (st : State) (m : Option Text) : (loadMinutes st m).user = st.user := by
  unfold loadMinutes
  split
  · split <;> rfl
  · rfl

/-- Loading the history writes nothing to `localStorage`. -/
theorem loadMinutes_localStorage (st : State) (m : Option Text) :
    (loadMinutes st m).localStorage = st.localStorage := by
  unfold loadMinutes
  split
  · split <;> rfl
  · rfl

/-- Loading the history writes nothing to `sessionStorage`. -/
theorem loadMinutes_sessionStorage (st : State) (m : Option Text) :
    (loadMinutes st m).sessionStorage = st.sessionStorage := by
  unfold loadMinutes
  split
  · split <;> rfl
  · rfl

/-- Loading leaves the session as it is. -/
@[simp] theorem loadUserData_user (st : State) : (loadUserData st).user = st.user := by
  unfold loadUserData
  simp only
  split
  · split
    · rw [loadMinutes_user]
    · rfl
  · rw [loadMinutes_user]

/-- Loading writes nothing to `localStorage`. -/
@[simp] theorem loadUserData_localStorage (st : State) :
    (loadUserData st).localStorage = st.localStorage := by
  unfold loadUserData
  simp only
  split
  · split
    · rw [loadMinutes_localStorage]
    · rfl
  · rw [loadMinutes_localStorage]

/-- Loading writes nothing to `sessionStorage`. -/
@[simp] theorem loadUserData_sessionStorage (st : State) :
    (loadUserData st).sessionStorage = st.sessionStorage := by
  unfold loadUserData
  simp only
  split
  · split
    · rw [loadMinutes_sessionStorage]
    · rfl
  · rw [loadMinutes_sessionStorage]

/-- C4, as stated, fails: the ids derived from `Board Meeting` and from
`board   meeting!!` differ. -/
theorem deriveId_board_meeting_differ :
    deriveId "Board Meeting" ≠ deriveId "board   meeting!!" := by decide

/-- C4, amended: `Board Meeting` and `board   meeting` both derive the id
`board-meeting` (case and the length of an inner run of non-alphanumerics do
not matter), while the trailing run of `board   meeting!!` leaves a trailing
separator: its id is `board-meeting-`. -/
theorem deriveId_board_meeting :
    deriveId "Board Meeting" = deriveId "board   meeting" ∧
    deriveId "Board Meeting" = "board-meeting" ∧
    deriveId "board   meeting!!" = "board-meeting-" := by decide

/-! ## C10: delete by position -/

/-- The `title` of a history record built by the generate handler. -/
theorem historyRecord_title (now : Int) (tn : Option JsVal) (title : JsVal)
    (minutes : List (String × JsVal)) :
    (historyRecord now tn title minutes).get "title" = some (some title) := by
  cases tn <;> rfl

/-- One successful generation puts its record in front of the history and
leaves the earlier records as they were. -/
theorem generateClick_history (st st' : State) (h : List JsVal) (now : Int)
    (nowText transcriptEl : String) (hh : st.minutesHistory = .arr h)
    (hgen : generateClick st now nowText transcriptEl = some st') :
    ∃ tn minutes, st'.minutes = .obj minutes ∧
      st'.minutesHistory = .arr (historyRecord now tn (deriveTitle minutes) minutes :: h) := by
  unfold generateClick at hgen
  split at hgen
  · split at hgen
    · exact absurd hgen (by simp)
    · split at hgen
      · exact absurd hgen (by simp)
      · split at hgen
        · next tid tname _ _ =>
          simp only at hgen
          split at hgen
          · next sel minutes h' _ _ hm =>
            rw [hh] at hm
            cases hm
            split at hgen
            · cases hgen
              exact ⟨tname, minutes, rfl, rfl⟩
            · exact absurd hgen (by simp)
          · exact absurd hgen (by simp)
        · exact absurd hgen (by simp)
  · exact absurd hgen (by simp)

/-- C9: after a successful generation on a history `h` the history is the new
record followed by `h`; after two, the record of the second is at position 0
and that of the first at position 1, each with the title derived from its own
minutes document. -/
theorem generateClick_most_recent_first (st st1 st2 : State) (h : List JsVal) (now1 now2 : Int)
    (nowText1 nowText2 tr1 tr2 : String) (hh : st.minutesHistory = .arr h)
    (h1 : generateClick st now1 nowText1 tr1 = some st1)
    (h2 : generateClick st1 now2 nowText2 tr2 = some st2) :
    ∃ r1 r2 m1 m2, st1.minutesHistory = .arr (r1 :: h) ∧
      st2.minutesHistory = .arr (r2 :: r1 :: h) ∧
      st1.minutes = .obj m1 ∧ st2.minutes = .obj m2 ∧
      r1.get "title" = some (some (deriveTitle m1)) ∧
      r2.get "title" = some (some (deriveTitle m2)) := by
  obtain ⟨tn1, m1, hm1, hr1⟩ := generateClick_history st st1 h now1 nowText1 tr1 hh h1
  obtain ⟨tn2, m2, hm2, hr2⟩ := generateClick_history st1 st2 _ now2 nowText2 tr2 hr1 h2
  exact ⟨_, _, m1, m2, hr1, hr2, hm1, hm2, historyRecord_title _ _ _ _, historyRecord_title _ _ _ _⟩

/-- C9 on two generations from a fresh start: both succeed, and the history
then holds the second record before the first. -/
theorem generateClick_most_recent_first_witness :
    ∃ st1 st2 r1 r2 m1 m2, onceGenerated = some st1 ∧ twiceGenerated = some st2 ∧
      st1.minutesHistory = .arr (r1 :: []) ∧
      st2.minutesHistory = .arr (r2 :: r1 :: []) ∧
      st1.minutes = .obj m1 ∧ st2.minutes = .obj m2 ∧
      r1.get "title" = some (some (deriveTitle m1)) ∧
      r2.get "title" = some (some (deriveTitle m2)) := by
  have e1 : onceGenerated.isSome = true := by rfl
  have e2 : twiceGenerated.isSome = true := by rfl
  obtain ⟨st1, hs1⟩ := Option.isSome_iff_exists.mp e1
  obtain ⟨st2, hs2⟩ := Option.isSome_iff_exists.mp e2
  have hs2' : generateClick st1 2 "2/1/2025" "second" = some st2 := by
    have := hs2
    unfold twiceGenerated at this
    rw [hs1] at this
    exact this
  obtain ⟨r1, r2, m1, m2, a, b, c, d, e, f⟩ :=
    generateClick_most_recent_first _ st1 st2 [] 1 2 "1/1/2025" "2/1/2025" "first" "second" rfl hs1 hs2'
  exact ⟨st1, st2, r1, r2, m1, m2, hs1, hs2, a, b, c, d, e, f⟩

/-! ## C5: sign-in and the two storage tiers -/

/-- A document without `sections` is reported as invalid, the exception of
`renderTemplates()` being caught, but only after the `push`: the registry in
memory holds it. -/
theorem importTemplate_without_sections :
    (parse noSectionsFile).bind (fun d => d.get "sections") = some none ∧
    (importTemplate freshState noSectionsFile).map Outcome.isDone = some false ∧
    (importTemplate freshState noSectionsFile).map (fun o => o.state.templates) =
      some (.arr (builtinTemplates ++
        [.obj [("name", .str "No Sections"), ("id", .str "no-sections")]])) := by
  refine ⟨rfl, rfl, rfl⟩

/-- C7 at the failing input: the built-in ids are pairwise distinct, the import
of a document with the id `default` runs to its end, and the registry then
holds the id `default` twice. -/
theorem importTemplate_duplicates_id :
    (templateIds builtinTemplates).Nodup ∧
    ∃ st' ts', importTemplate freshState sameIdFile = some (.done st') ∧
      st'.templates = .arr ts' ∧ ¬ (templateIds ts').Nodup := by
  constructor
  · simp [templateIds, templateId, builtinTemplates, JsVal.get, getProp, lookupOwn]
  · refine ⟨_, _, rfl, rfl, ?_⟩
    simp [templateIds, templateId, builtinTemplates, JsVal.get, getProp, lookupOwn]

/-- A value strictly equal to a string is that string. -/
theorem strictEqStr_some (a : Option JsVal) (id : String) :
    strictEqStr a (some id) = true ↔ a = some (.str id) := by
  cases a with
  | none => simp [strictEqStr]
  | some v => cases v <;> simp [strictEqStr]

/-- Writing to a position what it holds changes nothing. -/
theorem set_of_getElem? {α : Type} (l : List α) (i : Nat) (a : α) (h : l[i]? = some a) :
    l.set i a = l := by
  induction l generalizing i with
  | nil => rfl
  | cons b l ih =>
    cases i with
    | zero =>
      simp only [List.getElem?_cons_zero, Option.some.injEq] at h
      simp [h]
    | succ j =>
      simp only [List.getElem?_cons_succ] at h
      simp [ih j h]

/-- When `findIndex` finds a position, the template there has the id. -/
theorem findIndex_found (id : String) (ts : List JsVal) (i : Nat)
    (h : findIndex (some id) ts = some (some i)) :
    (templateIds ts)[i]? = some (some (.str id)) := by
  induction ts generalizing i with
  | nil => simp [findIndex] at h
  | cons t ts ih =>
    unfold findIndex at h
    split at h
    · exact absurd h (by simp)
    · next a ha =>
      split at h
      · next heq =>
        cases h
        rw [strictEqStr_some] at heq
        simp [templateIds, templateId, ha, heq]
      · cases hf : findIndex (some id) ts with
        | none => rw [hf] at h; exact absurd h (by simp)
        | some r =>
          rw [hf] at h
          cases r with
          | none => exact absurd h (by simp)
          | some j =>
            simp only [Option.map_some', Option.some.injEq] at h
            subst h
            have := ih j hf
            simpa [templateIds] using this

/-- When `findIndex` finds nothing, no template has the id. -/
theorem findIndex_absent (id : String) (ts : List JsVal)
    (h : findIndex (some id) ts = some none) :
    some (.str id) ∉ templateIds ts := by
  induction ts with
  | nil => simp [templateIds]
  | cons t ts ih =>
    unfold findIndex at h
    split at h
    · exact absurd h (by simp)
    · next a ha =>
      split at h
      · exact absurd h (by simp)
      · next hne =>
        cases hf : findIndex (some id) ts with
        | none => rw [hf] at h; exact absurd h (by simp)
        | some r =>
          rw [hf] at h
          cases r with
          | some j => exact absurd h (by simp)
          | none =>
            have h1 := ih hf
            have h2 : a ≠ some (.str id) := fun e => hne ((strictEqStr_some a id).mpr e)
            simp only [templateIds, List.map_cons, List.mem_cons, not_or]
            refine ⟨?_, h1⟩
            simp only [templateId, ha, Option.join]
            exact fun e => h2 e.symm

/-- Replacing the template that has the id of `tpl`, or appending `tpl` when
none has, keeps the ids pairwise distinct. -/
theorem upsert_ids_nodup (id : String) (tpl : JsVal) (ts ts' : List JsVal)
    (hid : templateId tpl = some (.str id)) (hnd : (templateIds ts).Nodup)
    (h : (match findIndex (some id) ts with
      | none => none
      | some (some i) => some (ts.set i tpl)
      | some none => some (ts ++ [tpl])) = some ts') :
    (templateIds ts').Nodup := by
  split at h
  · exact absurd h (by simp)
  · next i hi =>
    cases h
    have hf := set_of_getElem? _ _ _ (findIndex_found _ ts i hi)
    simp only [templateIds, List.map_set, hid] at hf hnd ⊢
    rw [hf]
    exact hnd
  · next hi =>
    cases h
    have hf := findIndex_absent _ ts hi
    simp only [templateIds, List.map_append, List.map_cons, List.map_nil, hid] at hf hnd ⊢
    rw [List.nodup_append]
    refine ⟨hnd, List.nodup_singleton _, ?_⟩
    intro a ha hb
    rw [List.mem_singleton] at hb
    subst hb
    exact hf ha

/-- The save-template handler keeps the template ids pairwise distinct: it
replaces the template that has the derived id, or appends when none has. -/
theorem saveTemplate_ids_nodup (st : State) (ts : List JsVal) (tplName tplDesc tplSections : String)
    (prompts : Option Text) (o : Outcome) (hts : st.templates = .arr ts)
    (hnd : (templateIds ts).Nodup)
    (ho : saveTemplate st tplName tplDesc tplSections prompts = some o) :
    ∃ ts', o.state.templates = .arr ts' ∧ (templateIds ts').Nodup := by
  unfold saveTemplate at ho
  simp only [hts] at ho
  split at ho
  · cases ho
    exact ⟨ts, hts, hnd⟩
  · next pv _ =>
    split at ho
    · exact absurd ho (by simp)
    · next ts' hup =>
      have hid : ∀ (l : List (String × JsVal)) (s : String),
          templateId (.obj (("id", .str s) :: l)) = some (.str s) := by
        intro l s
        simp [templateId, JsVal.get, getProp, lookupOwn]
      have hres := upsert_ids_nodup _ _ ts ts' (hid _ _) hnd hup
      split at ho
      · cases ho
        exact ⟨ts', rfl, hres⟩
      · exact absurd ho (by simp)

/-! ## C2: save and load -/

mutual
/-- A JSON value goes through `JSON.stringify` and `JSON.parse` unchanged. -/
theorem clean_of_isJson : ∀ v : JsVal, v.isJson = true → v.clean = v
  | .null, _ => rfl
  | .bool _, _ => rfl
  | .num _, _ => rfl
  | .str _, _ => rfl
  | .native, _ => rfl
  | .arr xs, h => by
    simp only [JsVal.isJson] at h
    simp only [JsVal.clean, cleanItems_of_allJson xs h]
  | .obj kvs, h => by
    simp only [JsVal.isJson] at h
    simp only [JsVal.clean, cleanProps_of_allJson kvs h]
/-- JSON elements are written as they are. -/
theorem cleanItems_of_allJson : ∀ xs : List JsVal, allJson xs = true → cleanItems xs = xs
  | [], _ => rfl
  | x :: xs, h => by
    simp only [allJson, Bool.and_eq_true] at h
    have hx := clean_of_isJson x h.1
    have hxs := cleanItems_of_allJson xs h.2
    cases x with
    | native => simp [JsVal.isJson] at h
    | _ => simp only [cleanItems, hx, hxs]
/-- JSON properties are written as they are. -/
theorem cleanProps_of_allJson :
    ∀ kvs : List (String × JsVal), allJsonProps kvs = true → cleanProps kvs = kvs
  | [], _ => rfl
  | (k, v) :: kvs, h => by
    simp only [allJsonProps, Bool.and_eq_true] at h
    have hv := clean_of_isJson v h.1
    have hkvs := cleanProps_of_allJson kvs h.2
    cases v with
    | native => simp [JsVal.isJson] at h
    | _ => simp only [cleanProps, hv, hkvs]
end

/-- C1 at the failing input: Alice signs in, saves the template `alice-plan`
and generates minutes, all persisted under her keys; Bob, who has nothing
stored, then signs in.  He is the active identity, and the templates and the
history in memory are still Alice's. -/
theorem signIn_keeps_previous_user_data :
    ∃ sa sb, aliceGenerated = some sa ∧ bobSignedIn = some (.done sb) ∧
      sa.user = some alice ∧ sb.user = some bob ∧
      sa.localStorage (keyUser (some alice) "templates") = some (stringify sa.templates) ∧
      sa.localStorage (keyUser (some alice) "minutes") = some (stringify sa.minutesHistory) ∧
      sb.localStorage (keyUser (some bob) "templates") = none ∧
      sb.localStorage (keyUser (some bob) "minutes") = none ∧
      sb.templates = sa.templates ∧ sb.minutesHistory = sa.minutesHistory ∧
      (∃ ts, sb.templates = .arr ts ∧ some (.str "alice-plan") ∈ templateIds ts) ∧
      (∃ r, sb.minutesHistory = .arr [r]) := by
  refine ⟨_, _, rfl, rfl, rfl, rfl, rfl, rfl, rfl, rfl, rfl, rfl, ⟨_, rfl, ?_⟩, ⟨_, rfl⟩⟩
  simp [templateIds, templateId, builtinTemplates, JsVal.get, getProp, lookupOwn]
  decide

/-! ## C8: the credential check -/

/-- C8 at the failing input: with no credential stored at all, a sign-in with
the email `constructor` is refused (`Incorrect password`): the lookup
`storedUsers[email]` finds the member of `Object.prototype` of that name.
Nothing is stored and nobody is signed in. -/
theorem authSubmit_inherited_name_refused :
    freshState.localStorage "users" = none ∧
    (authSubmit freshState "constructor" "secret" true).map Outcome.isDone = some false ∧
    (authSubmit freshState "constructor" "secret" true).map (fun o => o.state.user) = some none ∧
    (authSubmit freshState "constructor" "secret" true).map
      (fun o => o.state.localStorage "users") = some none := by
  refine ⟨rfl, rfl, rfl, rfl⟩

/-- The credential check on an email that is not the name of a member of
`Object.prototype`, over a stored table `users`: without a record for the email
a record with the digest of the password is stored and the sign-in goes on;
with a record, the sign-in goes on when the stored password is the digest of
the one given, and is refused, the state unchanged, when it is not.  (A sign-in
that goes on ends in `saveSession`, whose render calls must return.) -/
theorem authSubmit_spec (st : State) (users : List (String × JsVal)) (email password : String)
    (persist : Bool) (hU : st.localStorage "users" = some (.json (.obj users)))
    (htrim : trim email = email) (he : email ≠ "") (hp : password ≠ "")
    (hni : email ∉ inheritedNames) :
    (lookupOwn email users = none →
      ∀ st', st' = saveSession
        { st with
          localStorage := st.localStorage.setItem "users" (stringify (.obj
            (setOwn email (.obj [("password", .str (shaBase password))]) users))) }
        ⟨email⟩ persist →
      rendersSession st' = true →
      authSubmit st email password persist = some (.done st')) ∧
    (∀ r, lookupOwn email users = some r → r.truthy = true →
      (r.get "password" = some (some (.str (shaBase password))) →
        ∀ st', st' = saveSession
          { st with localStorage := st.localStorage.setItem "users" (stringify (.obj users)) }
          ⟨email⟩ persist →
        rendersSession st' = true →
        authSubmit st email password persist = some (.done st')) ∧
      (r.get "password" ≠ some (some (.str (shaBase password))) →
        authSubmit st email password persist = some (.refused st))) := by
  have hproto : email ≠ "__proto__" := by
    intro h
    exact hni (by rw [h]; decide)
  refine ⟨?_, ?_⟩
  · intro hno st' hst' hren
    subst hst'
    simp only [authSubmit, htrim, he, hp, or_self, if_false, hU, textTruthy, if_true, Option.bind,
      parse, getProp, hno, hni, truthy?, Bool.not_false, setProp, hproto, false_and, hren]
  · intro r hr htr
    have hget : ∃ pw, r.get "password" = some pw := by
      cases r with
      | null => simp [JsVal.truthy] at htr
      | _ => exact ⟨_, rfl⟩
    obtain ⟨pw, hpw⟩ := hget
    constructor
    · intro hmatch st' hst' hren
      subst hst'
      rw [hpw] at hmatch
      simp only [Option.some.injEq] at hmatch
      subst hmatch
      simp only [authSubmit, htrim, he, hp, or_self, if_false, hU, textTruthy, if_true,
        Option.bind, parse, getProp, hr, truthy?, htr, Bool.not_true, hpw, strictEqStr,
        beq_self_eq_true, Bool.false_eq_true, hren]
    · intro hmis
      have hne : strictEqStr pw (some (shaBase password)) = false := by
        cases hs : strictEqStr pw (some (shaBase password)) with
        | false => rfl
        | true =>
          rw [strictEqStr_some] at hs
          exact absurd (by rw [hpw, hs]) hmis
      simp only [authSubmit, htrim, he, hp, or_self, if_false, hU, textTruthy, if_true,
        Option.bind, parse, getProp, hr, truthy?, htr, Bool.not_true, hpw, hne,
        Bool.false_eq_true]

/-! ## C3: the shape of a generated document -/

/-- No storage key of an identity is the key of the session entry. -/
theorem keyUser_ne_session (u : User) (ns : String) : keyUser (some u) ns ≠ "session" := by
  intro h
  have h' := congrArg String.data h
  simp only [keyUser, String.data_append] at h'
  exact absurd h' (by simp)

/-- A sign-in as an identity whose two keys hold stored JSON loads exactly
those stored values into memory: what the previous session left there is
replaced. -/
theorem saveSession_loads_stored (st : State) (u : User) (persist : Bool) (tv hv : JsVal)
    (hT : st.localStorage (keyUser (some u) "templates") = some (.json tv))
    (hM : st.localStorage (keyUser (some u) "minutes") = some (.json hv)) :
    (saveSession st u persist).templates = tv ∧
    (saveSession st u persist).minutesHistory = hv := by
  have h1 := keyUser_ne_session u "templates"
  have h2 := keyUser_ne_session u "minutes"
  cases persist <;>
    simp [saveSession, loadUserData, loadMinutes, Storage.setItem, hT, hM, h1, h2, textTruthy,
      parse]

/-- A sign-in as an identity with nothing stored under its two keys leaves the
templates and the history in memory as the previous session had them. -/
theorem saveSession_without_stored (st : State) (u : User) (persist : Bool)
    (hT : st.localStorage (keyUser (some u) "templates") = none)
    (hM : st.localStorage (keyUser (some u) "minutes") = none) :
    (saveSession st u persist).templates = st.templates ∧
    (saveSession st u persist).minutesHistory = st.minutesHistory := by
  have h1 := keyUser_ne_session u "templates"
  have h2 := keyUser_ne_session u "minutes"
  cases persist <;>
    simp [saveSession, loadUserData, loadMinutes, Storage.setItem, hT, hM, h1, h2, textTruthy]

/-- The storage keys of two identities are equal only for the same kind and
the same lower-cased email. -/
theorem keyUser_eq_lower (a b : User) (ns ns' : String)
    (hns : ns = "templates" ∨ ns = "minutes") (hns' : ns' = "templates" ∨ ns' = "minutes")
    (h : keyUser (some a) ns = keyUser (some b) ns') :
    toLowerCase a.email = toLowerCase b.email := by
  have h' := congrArg String.data h
  simp only [keyUser, String.data_append, List.append_assoc, List.append_cancel_left_eq] at h'
  have hr := congrArg List.reverse h'
  simp only [List.reverse_append] at hr
  rcases hns with e | e <;> rcases hns' with e' | e' <;> subst e <;> subst e'
  · have := List.append_cancel_left hr
    exact String.ext (List.reverse_injective this)
  · exact absurd hr (by simp)
  · exact absurd hr (by simp)
  · have := List.append_cancel_left hr
    exact String.ext (List.reverse_injective this)

/-- Saving under one identity leaves the stored templates and history of an
identity with another lower-cased email as they were. -/
theorem persistUserData_other_identity (st : State) (a b : User) (ns : String)
    (ha : st.user = some a) (hne : toLowerCase a.email ≠ toLowerCase b.email)
    (hns : ns = "templates" ∨ ns = "minutes") :
    (persistUserData st).localStorage (keyUser (some b) ns) =
      st.localStorage (keyUser (some b) ns) := by
  have k1 : keyUser (some b) ns ≠ keyUser (some a) "templates" :=
    fun h => hne (keyUser_eq_lower b a ns "templates" hns (Or.inl rfl) h).symm
  have k2 : keyUser (some b) ns ≠ keyUser (some a) "minutes" :=
    fun h => hne (keyUser_eq_lower b a ns "minutes" hns (Or.inr rfl) h).symm
  simp only [persistUserData, Storage.setItem, ha, if_neg k1, if_neg k2]

end MinuteMaker
